import Mathlib

/-!
# Verification of the plugin_manager lifecycle core

Shallow embedding of `plugin.go` (package `plugin_manager`): the plugin
lifecycle state machine (`Load`/`Unload`/`Reload`), the reflective function
cache (`GetFunc`/`Call`), and the dynamic-call validation wrapper.

The artifact loader (`Open`/`Lookup`) is the external collaborator of spec
section 4.1; the repository itself ships only its platform stub
(`plugin_stubs.go`), so artifacts and the registry are parameters of the
model (`Artifact`, `Env`).  Everything else is translated line-by-line from
`plugin.go`.  Go panics (out-of-range index writes, nil dereference) are
modelled with `Except.error`; ordinary Go `error` values are modelled by the
inductive `ErrKind`.

Each operation additionally returns the list of observable effects it
performed (`Event`): status writes (`setStatus` calls), registry
notification (`OnLoaded`), cache clearing and unload-export invocation, in
program order.  This trace is only an instrumentation of the control flow;
the returned `Plugin` value and error follow the Go code exactly.
-/

namespace PluginManager

/-- Status enumeration, from the `PluginStatus` constants of `plugin.go`. -/
inductive PluginStatus
  | None
  | Loading
  | Loaded
  | Reloading
  | Unloading
  | Unloaded
  deriving DecidableEq, Repr

/-- Error identities of the errors constructed or propagated by `plugin.go`. -/
inductive ErrKind
  | openFailed (msg : String)
  | symbolNotFound (name : String)
  | duplicateLoad
  | notLoaded
  | arityMismatch
  | typeMismatch (idx : Nat) (required : String)
  | exportErr (msg : String)
  deriving DecidableEq, Repr

/-- A Go runtime type, as far as the call validator looks at it: the code
compares `reflect.Type.Name()` strings only, so a type is its name. -/
structure GoType where
  name : String
  deriving DecidableEq, Repr

/-- A non-nil `interface{}` argument value: its runtime type plus abstract
payload. -/
structure GoValue where
  type : GoType
  payload : Nat
  deriving DecidableEq, Repr

/-- A value stored in a result slot (`[]interface{}` element): Go's zero
interface `nil`, an `error` value, or an ordinary value. -/
inductive GoAny
  | nil
  | errv (e : ErrKind)
  | val (v : GoValue)
  deriving DecidableEq, Repr

/-- One cached reflective binding (`pluginFuncInfo`): the parameter and
return types discovered by reflection at bind time, and the underlying
function's behaviour (`rfv.Call`) as a function on argument lists. -/
structure FuncInfo where
  inTypes : List GoType
  outTypes : List GoType
  dispatch : List GoValue → List GoAny

/-- Behaviour of an artifact's `Load` export when handed the registration
callback: the `(name, version)` pairs it passes to the callback, in order,
and the error the export itself returns afterwards. -/
structure LoadExport where
  calls : List (String × Nat)
  ret : Option ErrKind

/-- An opened artifact (`*PluginType`), presented through the three typed
views `plugin.go` takes of `Lookup`: the `Load` export, the `Unload`
export, and the ordinary exported functions reached by `GetFunc`.
`none` models a failing `Lookup`. -/
structure Artifact where
  loadExport : Option LoadExport
  unloadExport : Option (Option ErrKind)
  funcs : String → Option FuncInfo

/-- The `Plugin` struct of `plugin.go` (the lock is the sequentialised
semantics itself; `m Manager` is the environment `Env`). -/
structure Plugin where
  name : String
  version : Nat
  path : String
  plugin : Option Artifact
  status : PluginStatus
  refs : Int
  cache : List (String × FuncInfo)

/-- External world: the artifact loader `Open` (spec 4.1) and the
registry's duplicate check `GetPluginWithVersion` (non-nil result). -/
structure Env where
  openArtifact : String → Except ErrKind Artifact
  registryHas : String → Nat → Bool

/-- Observable effects, recorded in program order. -/
inductive Event
  | setStatus (s : PluginStatus)
  | onLoaded (name : String) (version : Nat)
  | invokedUnloadExport
  | clearedCache
  deriving DecidableEq, Repr

/-- `NewPlugin` of `plugin.go`. -/
def NewPlugin (path : String) : Plugin :=
  { name := ""
    version := 0
    path := path
    plugin := none
    status := PluginStatus.None
    refs := 0
    cache := [] }

/-- The registration callback closure `register` built inside `Load`
(plugin.go lines 127-143): it writes `name`/`version` on the record, then
asks the registry for a duplicate; on a duplicate it reverts the status to
`None` and fails, otherwise it sets `Loaded` and notifies the registry. -/
def registerCb (env : Env) (p : Plugin) (nm : String) (ver : Nat) :
    Plugin × Option ErrKind × List Event :=
  let p1 : Plugin := { p with name := nm, version := ver }
  if env.registryHas nm ver then
    ({ p1 with status := PluginStatus.None },
      some ErrKind.duplicateLoad,
      [Event.setStatus PluginStatus.None])
  else
    ({ p1 with status := PluginStatus.Loaded },
      none,
      [Event.setStatus PluginStatus.Loaded, Event.onLoaded nm ver])

/-- The artifact's `Load` export invoking the registration callback once
per declared pair, threading the record through; the callback's return
values go back to the artifact, which is free to ignore them. -/
def runRegister (env : Env) (p : Plugin) : List (String × Nat) → Plugin × List Event
  | [] => (p, [])
  | (nm, ver) :: rest =>
      let r := registerCb env p nm ver
      let s := runRegister env r.1 rest
      (s.1, r.2.2 ++ s.2)

/-- `Load` (plugin.go lines 106-147): skip unless status is `None` or
`Unloaded`; set `Loading`; open the artifact (revert to `None` on failure);
resolve the `Load` export (revert to `None` on failure); invoke it with the
registration callback and return the export's own error. -/
def Load (env : Env) (p : Plugin) : Plugin × Option ErrKind × List Event :=
  if p.status ≠ PluginStatus.None ∧ p.status ≠ PluginStatus.Unloaded then
    (p, none, [])
  else
    let p1 : Plugin := { p with status := PluginStatus.Loading }
    match env.openArtifact p1.path with
    | Except.error e =>
        ({ p1 with status := PluginStatus.None }, some e,
          [Event.setStatus PluginStatus.Loading, Event.setStatus PluginStatus.None])
    | Except.ok art =>
        let p2 : Plugin := { p1 with plugin := some art }
        match art.loadExport with
        | none =>
            ({ p2 with status := PluginStatus.None },
              some (ErrKind.symbolNotFound "Load"),
              [Event.setStatus PluginStatus.Loading, Event.setStatus PluginStatus.None])
        | some ex =>
            let s := runRegister env p2 ex.calls
            (s.1, ex.ret, Event.setStatus PluginStatus.Loading :: s.2)

/-- `Unload` (plugin.go lines 166-187): skip if status is `Unloaded`,
`Unloading` or `None`; otherwise clear the function cache, resolve the
artifact's `Unload` export (returning the lookup error, status untouched,
if it is absent), invoke it, set status `Unloaded`, and return the export's
error.  A nil artifact handle would be dereferenced by `Lookup`; that panic
is the `Except.error` case. -/
def Unload (p : Plugin) : Except String (Plugin × Option ErrKind × List Event) :=
  if p.status = PluginStatus.Unloaded ∨ p.status = PluginStatus.Unloading ∨
      p.status = PluginStatus.None then
    Except.ok (p, none, [])
  else
    let p1 : Plugin := { p with cache := [] }
    match p1.plugin with
    | none => Except.error "nil artifact handle"
    | some art =>
        match art.unloadExport with
        | none =>
            Except.ok (p1, some (ErrKind.symbolNotFound "Unload"),
              [Event.clearedCache])
        | some r =>
            Except.ok ({ p1 with status := PluginStatus.Unloaded }, r,
              [Event.clearedCache, Event.invokedUnloadExport,
                Event.setStatus PluginStatus.Unloaded])

/-- `Reload` (plugin.go lines 149-164): `Unload`, short-circuiting its
error; `Load`, short-circuiting its error; then unconditionally set status
`Loaded` and return nil. -/
def Reload (env : Env) (p : Plugin) :
    Except String (Plugin × Option ErrKind × List Event) :=
  match Unload p with
  | Except.error m => Except.error m
  | Except.ok (p1, some e, ev1) => Except.ok (p1, some e, ev1)
  | Except.ok (p1, none, ev1) =>
      match Load env p1 with
      | (p2, some e, ev2) => Except.ok (p2, some e, ev1 ++ ev2)
      | (p2, none, ev2) =>
          Except.ok ({ p2 with status := PluginStatus.Loaded }, none,
            ev1 ++ ev2 ++ [Event.setStatus PluginStatus.Loaded])

/-- `GetFunc` (plugin.go lines 197-254): fail with the "plugin not loaded"
error if no artifact handle is present; serve a cache hit; otherwise look
the symbol up in the artifact, bind it (reflection captured in `FuncInfo`),
insert it into the cache and return it. -/
def GetFuncOp (p : Plugin) (fname : String) : Plugin × Except ErrKind FuncInfo :=
  match p.plugin with
  | none => (p, Except.error ErrKind.notLoaded)
  | some art =>
      match p.cache.lookup fname with
      | some info => (p, Except.ok info)
      | none =>
          match art.funcs fname with
          | none => (p, Except.error (ErrKind.symbolNotFound fname))
          | some info =>
              ({ p with cache := (fname, info) :: p.cache }, Except.ok info)

/-- The in-bounds write `out[len(out)-1] = err` followed by `return out`:
on an empty slice the index is -1 and Go panics with an index-out-of-range
runtime error. -/
def setLast (out : List GoAny) (e : ErrKind) : Except String (List GoAny) :=
  if out.length = 0 then Except.error "index out of range"
  else Except.ok (out.set (out.length - 1) (GoAny.errv e))

/-- The loop `for k, param := range params` of the invocation closure:
first index whose declared parameter type name differs from the argument's
runtime type name, together with the declared type (plugin.go line 235). -/
def findMismatch : List GoType → List GoValue → Nat → Option (Nat × GoType)
  | [], _, _ => none
  | _ :: _, [], _ => none
  | t :: ts, v :: vs, k =>
      if t.name ≠ v.type.name then some (k, t)
      else findMismatch ts vs (k + 1)

/-- The copy loop `for i := 0; i < len(result); i++ { out[i] = result[i] }`:
writes past `len(out)` panic; shorter results leave the remaining slots at
their zero value. -/
def copyResults (result : List GoAny) (out : List GoAny) :
    Except String (List GoAny) :=
  if out.length < result.length then Except.error "index out of range"
  else Except.ok (result ++ out.drop result.length)

/-- The invocation closure built by `GetFunc` (plugin.go lines 225-250):
allocate `len(outTypes)` zero slots; on an argument-count mismatch or a
type-name mismatch put the error in the last slot and return; otherwise
dispatch and copy the call's results into the slots. -/
def invoke (info : FuncInfo) (params : List GoValue) : Except String (List GoAny) :=
  let out := List.replicate info.outTypes.length GoAny.nil
  if params.length ≠ info.inTypes.length then
    setLast out ErrKind.arityMismatch
  else
    match findMismatch info.inTypes params 0 with
    | some (k, t) => setLast out (ErrKind.typeMismatch k t.name)
    | none => copyResults (info.dispatch params) out

/-- `Call` (plugin.go lines 189-195): `GetFunc` then invoke; a `GetFunc`
failure becomes a single-element result list holding the error. -/
def CallOp (p : Plugin) (fname : String) (params : List GoValue) :
    Plugin × Except String (List GoAny) :=
  match GetFuncOp p fname with
  | (p1, Except.error e) => (p1, Except.ok [GoAny.errv e])
  | (p1, Except.ok info) => (p1, invoke info params)

/-! ## Observation helpers -/

/-- Whether a `GetFunc` outcome is the "plugin not loaded" failure. -/
def isNotLoadedErr : Except ErrKind FuncInfo → Bool
  | Except.error ErrKind.notLoaded => true
  | _ => false

/-- Whether an invocation outcome is a Go panic. -/
def panicked : Except String (List GoAny) → Bool
  | Except.error _ => true
  | Except.ok _ => false

/-- Whether an invocation outcome is a returned result list carrying a
type-mismatch error in its last slot. -/
def isTypeMismatchResult : Except String (List GoAny) → Bool
  | Except.ok out =>
      match out.getLast? with
      | some (GoAny.errv (ErrKind.typeMismatch _ _)) => true
      | _ => false
  | Except.error _ => false

/-- The sequence of statuses written by a trace, in order. -/
def statusWrites : List Event → List PluginStatus
  | [] => []
  | Event.setStatus s :: rest => s :: statusWrites rest
  | _ :: rest => statusWrites rest

/-- Trace of an `Unload` run (empty when it panics). -/
def unloadEvents (p : Plugin) : List Event :=
  match Unload p with
  | Except.ok (_, _, ev) => ev
  | Except.error _ => []

/-- Trace of a `Reload` run (empty when it panics). -/
def reloadEvents (env : Env) (p : Plugin) : List Event :=
  match Reload env p with
  | Except.ok (_, _, ev) => ev
  | Except.error _ => []

/-! ## Concrete fixtures

The `echo` scenario of spec section 8: an artifact declaring name `"echo"`
version `0x0100`, exporting a one-string-in, `(string, error)`-out
function; plus small signatures used to probe the zero-return-arity edge. -/

def echoType : GoType := { name := "string" }

def echoInfo : FuncInfo :=
  { inTypes := [echoType]
    outTypes := [echoType, { name := "error" }]
    dispatch := fun params => (params.map GoAny.val) ++ [GoAny.nil] }

def echoArtifact : Artifact :=
  { loadExport := some { calls := [("echo", 256)], ret := none }
    unloadExport := some none
    funcs := fun _ => some echoInfo }

def loadedEcho : Plugin :=
  { name := "echo", version := 256, path := "/plugins/echo.so"
    plugin := some echoArtifact, status := PluginStatus.Loaded
    refs := 0, cache := [] }

/-- A bound function taking one `int` and returning nothing. -/
def zeroRetInfo : FuncInfo :=
  { inTypes := [{ name := "int" }], outTypes := [], dispatch := fun _ => [] }

/-- A bound function taking nothing and returning nothing. -/
def nullaryNoOut : FuncInfo :=
  { inTypes := [], outTypes := [], dispatch := fun _ => [] }

def intVal : GoValue := { type := { name := "int" }, payload := 7 }

def strVal : GoValue := { type := { name := "string" }, payload := 0 }

/-- Environment in which the registry already holds every plugin. -/
def envDup : Env :=
  { openArtifact := fun _ => Except.error (ErrKind.openFailed "open /p: no such file")
    registryHas := fun _ _ => true }

/-- A record mid-`Load`, before its registration callback runs. -/
def pOld : Plugin :=
  { name := "old", version := 1, path := "/p", plugin := none
    status := PluginStatus.Loading, refs := 0, cache := [] }

/-! ## Shared lemmas about the invocation closure -/

theorem invoke_arity_fail (info : FuncInfo) (params : List GoValue)
    (h : params.length ≠ info.inTypes.length) :
    invoke info params =
      setLast (List.replicate info.outTypes.length GoAny.nil) ErrKind.arityMismatch := by
  simp [invoke, h]

theorem invoke_type_fail (info : FuncInfo) (params : List GoValue) (k : Nat) (t : GoType)
    (hlen : params.length = info.inTypes.length)
    (hm : findMismatch info.inTypes params 0 = some (k, t)) :
    invoke info params =
      setLast (List.replicate info.outTypes.length GoAny.nil)
        (ErrKind.typeMismatch k t.name) := by
  simp [invoke, hlen, hm]

theorem invoke_validated (info : FuncInfo) (params : List GoValue)
    (hlen : params.length = info.inTypes.length)
    (hm : findMismatch info.inTypes params 0 = none) :
    invoke info params =
      copyResults (info.dispatch params)
        (List.replicate info.outTypes.length GoAny.nil) := by
  simp [invoke, hlen, hm]

theorem replicate_set_last (n : Nat) (b : GoAny) :
    (List.replicate (n + 1) GoAny.nil).set n b =
      List.replicate n GoAny.nil ++ [b] := by
  induction n with
  | zero => rfl
  | succ m ih =>
      show (GoAny.nil :: List.replicate (m + 1) GoAny.nil).set (m + 1) b =
        (GoAny.nil :: List.replicate m GoAny.nil) ++ [b]
      rw [List.set_cons_succ, ih, List.cons_append]

theorem setLast_replicate (n : Nat) (e : ErrKind) (hn : 1 ≤ n) :
    setLast (List.replicate n GoAny.nil) e =
      Except.ok (List.replicate (n - 1) GoAny.nil ++ [GoAny.errv e]) := by
  obtain ⟨m, rfl⟩ : ∃ m, n = m + 1 := ⟨n - 1, (Nat.succ_pred_eq_of_pos hn).symm⟩
  simp [setLast, replicate_set_last]

theorem copyResults_exact (result : List GoAny) (n : Nat)
    (hlen : result.length = n) :
    copyResults result (List.replicate n GoAny.nil) = Except.ok result := by
  subst hlen
  simp [copyResults]

/-- Characterisation of a clean validation pass: `findMismatch` returns
`none` exactly when every common index carries equal type names. -/
theorem findMismatch_none_iff (ts : List GoType) (vs : List GoValue) (i : Nat) :
    findMismatch ts vs i = none ↔
      ∀ j t v, ts.get? j = some t → vs.get? j = some v → t.name = v.type.name := by
  induction ts generalizing vs i with
  | nil =>
      constructor
      · intro _ j t v ht _
        simp at ht
      · intro _
        rfl
  | cons t0 ts ih =>
      cases vs with
      | nil =>
          constructor
          · intro _ j t v _ hv
            simp at hv
          · intro _
            rfl
      | cons v0 vs =>
          by_cases h0 : t0.name = v0.type.name
          · have hstep : findMismatch (t0 :: ts) (v0 :: vs) i =
                findMismatch ts vs (i + 1) := by
              simp [findMismatch, h0]
            rw [hstep, ih vs (i + 1)]
            constructor
            · intro h j t v ht hv
              cases j with
              | zero =>
                  simp only [List.get?_cons_zero, Option.some.injEq] at ht hv
                  rw [← ht, ← hv]
                  exact h0
              | succ j => exact h j t v (by simpa using ht) (by simpa using hv)
            · intro h j t v ht hv
              exact h (j + 1) t v (by simpa using ht) (by simpa using hv)
          · have hstep : findMismatch (t0 :: ts) (v0 :: vs) i = some (i, t0) := by
              simp [findMismatch, h0]
            rw [hstep]
            constructor
            · intro hc
              simp at hc
            · intro h
              exact absurd (h 0 t0 v0 rfl rfl) h0


/-- Extraction from a reported mismatch: `findMismatch` returning
`some (k, t)` means the declared type at offset `k - i` is `t` and the
argument there carries a different type name. -/
theorem findMismatch_some (ts : List GoType) (vs : List GoValue) (i k : Nat) (t : GoType)
    (h : findMismatch ts vs i = some (k, t)) :
    i ≤ k ∧ ∃ v, ts.get? (k - i) = some t ∧ vs.get? (k - i) = some v ∧
      t.name ≠ v.type.name := by
  induction ts generalizing vs i with
  | nil => simp [findMismatch] at h
  | cons t0 ts ih =>
      cases vs with
      | nil => simp [findMismatch] at h
      | cons v0 vs =>
          by_cases h0 : t0.name = v0.type.name
          · have hstep : findMismatch (t0 :: ts) (v0 :: vs) i =
                findMismatch ts vs (i + 1) := by
              simp [findMismatch, h0]
            rw [hstep] at h
            obtain ⟨hik, v, hts, hvs, hne⟩ := ih vs (i + 1) h
            have hsub : k - i = (k - (i + 1)) + 1 := by omega
            refine ⟨by omega, v, ?_, ?_, hne⟩
            · rw [hsub]
              simpa using hts
            · rw [hsub]
              simpa using hvs
          · have hstep : findMismatch (t0 :: ts) (v0 :: vs) i = some (i, t0) := by
              simp [findMismatch, h0]
            rw [hstep] at h
            obtain ⟨h1, h2⟩ : i = k ∧ t0 = t := by simpa using h
            subst h1
            subst h2
            exact ⟨Nat.le_refl i, v0, by simp, by simp, h0⟩

theorem statusWrites_append (a b : List Event) :
    statusWrites (a ++ b) = statusWrites a ++ statusWrites b := by
  induction a with
  | nil => rfl
  | cons e rest ih => cases e <;> simp [statusWrites, ih]

theorem statusWrites_cons_set (s : PluginStatus) (rest : List Event) :
    statusWrites (Event.setStatus s :: rest) = s :: statusWrites rest := rfl

/-- The registration callback only ever writes `None` or `Loaded`. -/
theorem runRegister_statusWrites (env : Env) (p : Plugin)
    (calls : List (String × Nat)) :
    statusWrites (runRegister env p calls).2 ⊆
      [PluginStatus.None, PluginStatus.Loaded] := by
  induction calls generalizing p with
  | nil => simp [runRegister, statusWrites]
  | cons c rest ih =>
      obtain ⟨nm, ver⟩ := c
      simp only [runRegister]
      rw [statusWrites_append]
      refine List.append_subset.mpr ⟨?_, ih _⟩
      by_cases hd : env.registryHas nm ver <;>
        simp [registerCb, hd, statusWrites]

/-- `Load` only ever writes `Loading`, `None` or `Loaded`. -/
theorem load_statusWrites (env : Env) (p : Plugin) :
    statusWrites (Load env p).2.2 ⊆
      [PluginStatus.Loading, PluginStatus.None, PluginStatus.Loaded] := by
  unfold Load
  by_cases hskip : p.status ≠ PluginStatus.None ∧ p.status ≠ PluginStatus.Unloaded
  · simp [hskip, statusWrites]
  · rw [if_neg hskip]
    dsimp only
    cases env.openArtifact p.path with
    | error e => simp [statusWrites]
    | ok art =>
        dsimp only
        cases art.loadExport with
        | none => simp [statusWrites]
        | some ex =>
            dsimp only
            rw [statusWrites_cons_set]
            intro s hs
            rcases List.mem_cons.mp hs with rfl | hs
            · simp
            · have := runRegister_statusWrites env _ ex.calls hs
              simp at this
              rcases this with h | h <;> simp [h]

/-- `Unload` only ever writes `Unloaded`. -/
theorem unload_statusWrites (p : Plugin) :
    statusWrites (unloadEvents p) ⊆ [PluginStatus.Unloaded] := by
  unfold unloadEvents Unload
  by_cases hskip : p.status = PluginStatus.Unloaded ∨
      p.status = PluginStatus.Unloading ∨ p.status = PluginStatus.None
  · simp [hskip, statusWrites]
  · rw [if_neg hskip]
    dsimp only
    cases p.plugin with
    | none => simp [statusWrites]
    | some art =>
        dsimp only
        cases art.unloadExport with
        | none => simp [statusWrites]
        | some r => simp [statusWrites]

/-- `Reload` only ever writes `Loading`, `None`, `Loaded` or `Unloaded`. -/
theorem reload_statusWrites (env : Env) (p : Plugin) :
    statusWrites (reloadEvents env p) ⊆
      [PluginStatus.Loading, PluginStatus.None, PluginStatus.Loaded,
        PluginStatus.Unloaded] := by
  have hUsub : statusWrites (unloadEvents p) ⊆ [PluginStatus.Unloaded] :=
    unload_statusWrites p
  unfold reloadEvents Reload
  cases hU : Unload p with
  | error m => simp [statusWrites]
  | ok r =>
      obtain ⟨p1, e1, ev1⟩ := r
      rw [unloadEvents, hU] at hUsub
      have h1 : statusWrites ev1 ⊆
          [PluginStatus.Loading, PluginStatus.None, PluginStatus.Loaded,
            PluginStatus.Unloaded] := by
        intro s hs
        have := hUsub hs
        simp at this
        simp [this]
      have h2 : statusWrites (Load env p1).2.2 ⊆
          [PluginStatus.Loading, PluginStatus.None, PluginStatus.Loaded,
            PluginStatus.Unloaded] := by
        intro s hs
        have := load_statusWrites env p1 hs
        simp at this
        rcases this with h | h | h <;> simp [h]
      cases e1 with
      | some e => exact h1
      | none =>
          dsimp only
          rcases hL : Load env p1 with ⟨p2, e2, ev2⟩
          rw [hL] at h2
          cases e2 with
          | some e =>
              dsimp only
              rw [statusWrites_append]
              exact List.append_subset.mpr ⟨h1, h2⟩
          | none =>
              dsimp only
              rw [statusWrites_append, statusWrites_append]
              refine List.append_subset.mpr ⟨List.append_subset.mpr ⟨h1, h2⟩, ?_⟩
              simp [statusWrites]

/-! ## Claims -/

/-- C1 counterexample: on the `echo` record in status `Loaded`, `Unload()`
succeeds but does not clear the artifact handle, and the immediately
following `GetFunc "Echo"` does NOT fail with `PluginNotLoaded` — it
resolves and binds the symbol against the old artifact, contradicting the
claim. -/
theorem c1_counterexample :
    Unload loadedEcho =
      Except.ok ({ loadedEcho with cache := [], status := PluginStatus.Unloaded },
        (none : Option ErrKind),
        [Event.clearedCache, Event.invokedUnloadExport,
          Event.setStatus PluginStatus.Unloaded]) ∧
    isNotLoadedErr
      (GetFuncOp { loadedEcho with cache := [], status := PluginStatus.Unloaded }
        "Echo").2 = false ∧
    (GetFuncOp { loadedEcho with cache := [], status := PluginStatus.Unloaded }
        "Echo").2 = Except.ok echoInfo :=
  ⟨rfl, rfl, rfl⟩

/-- C1 (amended): `Unload()` on a `Loaded` record clears the function cache
but leaves the artifact handle in place, so the immediately following
`GetFunc` never fails with `PluginNotLoaded`; for any name the artifact
exports, `GetFunc` resolves and binds the symbol against the old
artifact. -/
theorem c1_amended (p : Plugin) (art : Artifact) (r : Option ErrKind)
    (hs : p.status = PluginStatus.Loaded)
    (hp : p.plugin = some art) (hu : art.unloadExport = some r) :
    Unload p =
      Except.ok ({ p with cache := [], status := PluginStatus.Unloaded }, r,
        [Event.clearedCache, Event.invokedUnloadExport,
          Event.setStatus PluginStatus.Unloaded]) ∧
    ({ p with cache := [], status := PluginStatus.Unloaded } : Plugin).plugin =
      some art ∧
    (∀ fname, isNotLoadedErr
      (GetFuncOp { p with cache := [], status := PluginStatus.Unloaded } fname).2 =
        false) ∧
    (∀ fname info, art.funcs fname = some info →
      (GetFuncOp { p with cache := [], status := PluginStatus.Unloaded } fname).2 =
        Except.ok info) := by
  have hp' :
      ({ p with cache := [], status := PluginStatus.Unloaded } : Plugin).plugin =
        some art := by
    simpa using hp
  refine ⟨?_, hp', ?_, ?_⟩
  · simp [Unload, hs, hp, hu]
  · intro fname
    cases hf : art.funcs fname with
    | none => simp [GetFuncOp, hp, hf, isNotLoadedErr]
    | some info => simp [GetFuncOp, hp, hf, isNotLoadedErr]
  · intro fname info hf
    simp [GetFuncOp, hp, hf]

/-- C1 amended witness: on the concrete `echo` record, after `Unload` the
symbol `"Echo"` still binds against the old artifact. -/
theorem c1_amended_witness :
    loadedEcho.status = PluginStatus.Loaded ∧
    (GetFuncOp { loadedEcho with cache := [], status := PluginStatus.Unloaded }
      "Echo").2 = Except.ok echoInfo :=
  ⟨rfl, (c1_amended loadedEcho echoArtifact none rfl rfl rfl).2.2.2 "Echo" echoInfo rfl⟩

/-- C2: on any record whose status is none of `None`/`Unloaded`/`Unloading`
and whose artifact resolves an `Unload` export, `Unload()` first clears the
function cache, then invokes the export, and returns with status `Unloaded`
regardless of the export's error `r`, which is propagated; the trace shows
the cache clearing preceding the export invocation, and the final status is
terminal. -/
theorem c2_unload_terminal (p : Plugin) (art : Artifact) (r : Option ErrKind)
    (h1 : p.status ≠ PluginStatus.None) (h2 : p.status ≠ PluginStatus.Unloaded)
    (h3 : p.status ≠ PluginStatus.Unloading)
    (hp : p.plugin = some art) (hu : art.unloadExport = some r) :
    Unload p =
      Except.ok ({ p with cache := [], status := PluginStatus.Unloaded }, r,
        [Event.clearedCache, Event.invokedUnloadExport,
          Event.setStatus PluginStatus.Unloaded]) := by
  simp [Unload, h1, h2, h3, hp, hu]

/-- C2 witness: the concrete `Loaded` `echo` record unloads to status
`Unloaded` with a nil export error. -/
theorem c2_unload_terminal_witness :
    Unload loadedEcho =
      Except.ok ({ loadedEcho with cache := [], status := PluginStatus.Unloaded },
        (none : Option ErrKind),
        [Event.clearedCache, Event.invokedUnloadExport,
          Event.setStatus PluginStatus.Unloaded]) :=
  c2_unload_terminal loadedEcho echoArtifact none (by decide) (by decide) (by decide)
    rfl rfl

/-- C3 counterexample: with the registry already holding `("echo", 0x100)`,
the registration callback on a record named `"old"` does fail with
`DuplicateLoad` and revert status to `None`, but it has already overwritten
the record's identity fields: the name afterwards is `"echo"`, not the
previous `"old"`, contradicting the claim that identity fields are
unchanged on the duplicate branch. -/
theorem c3_counterexample :
    (registerCb envDup pOld "echo" 256).2.1 = some ErrKind.duplicateLoad ∧
    (registerCb envDup pOld "echo" 256).1.status = PluginStatus.None ∧
    pOld.name = "old" ∧
    (registerCb envDup pOld "echo" 256).1.name = "echo" ∧
    (registerCb envDup pOld "echo" 256).1.version = 256 ∧
    pOld.version = 1 :=
  ⟨rfl, rfl, rfl, rfl, rfl, rfl⟩

/-- C3 (amended): when the registry already holds the `(name, version)`
pair, the registration callback fails with `DuplicateLoad` and reverts
status to `None`, but the record's `name` and `version` fields are written
unconditionally before the duplicate check, so on the duplicate branch the
identity fields carry the new pair rather than their previous values. -/
theorem c3_amended (env : Env) (p : Plugin) (nm : String) (ver : Nat)
    (hdup : env.registryHas nm ver = true) :
    registerCb env p nm ver =
      ({ p with name := nm, version := ver, status := PluginStatus.None },
        some ErrKind.duplicateLoad, [Event.setStatus PluginStatus.None]) := by
  simp [registerCb, hdup]

/-- C3 amended witness: concrete duplicate registration of
`("echo", 0x100)` over a record named `"old"`. -/
theorem c3_amended_witness :
    envDup.registryHas "echo" 256 = true ∧
    registerCb envDup pOld "echo" 256 =
      ({ pOld with name := "echo", version := 256, status := PluginStatus.None },
        some ErrKind.duplicateLoad, [Event.setStatus PluginStatus.None]) :=
  ⟨rfl, c3_amended envDup pOld "echo" 256 rfl⟩

/-- C4 counterexample: for a bound function whose declared return arity is
zero, an argument list failing validation (0 arguments against 1 declared
parameter) does not produce a result sequence of the declared arity with
the error in the last slot — the write of the error into the last slot of
the empty result list panics with an index-out-of-range error, so nothing
is returned at all. -/
theorem c4_counterexample :
    zeroRetInfo.outTypes.length = 0 ∧
    zeroRetInfo.inTypes.length = 1 ∧
    invoke zeroRetInfo [] = Except.error "index out of range" :=
  ⟨rfl, rfl, rfl⟩

/-- C4 (amended): for every bound function whose declared return arity is
at least one, a validation failure (wrong argument count, or a type-name
mismatch) returns a result sequence of length equal to the declared return
arity with the error in the last slot and every other slot at the zero
value; on successful validation the dispatched call's results are returned
as a sequence of that same length.  (For return arity zero the failure
paths panic instead; see the counterexample.) -/
theorem c4_amended (info : FuncInfo) (params : List GoValue)
    (hn : 1 ≤ info.outTypes.length) :
    (params.length ≠ info.inTypes.length →
      invoke info params =
        Except.ok (List.replicate (info.outTypes.length - 1) GoAny.nil ++
          [GoAny.errv ErrKind.arityMismatch])) ∧
    (∀ k t, params.length = info.inTypes.length →
      findMismatch info.inTypes params 0 = some (k, t) →
      invoke info params =
        Except.ok (List.replicate (info.outTypes.length - 1) GoAny.nil ++
          [GoAny.errv (ErrKind.typeMismatch k t.name)])) ∧
    (params.length = info.inTypes.length →
      findMismatch info.inTypes params 0 = none →
      (info.dispatch params).length = info.outTypes.length →
      invoke info params = Except.ok (info.dispatch params)) := by
  refine ⟨?_, ?_, ?_⟩
  · intro h
    rw [invoke_arity_fail info params h, setLast_replicate _ _ hn]
  · intro k t hlen hm
    rw [invoke_type_fail info params k t hlen hm, setLast_replicate _ _ hn]
  · intro hlen hm hd
    rw [invoke_validated info params hlen hm, copyResults_exact _ _ hd]

/-- C4 amended witness: calling the two-result `Echo` binding with no
arguments yields a two-slot list with `ArityMismatch` in the last slot. -/
theorem c4_amended_witness :
    1 ≤ echoInfo.outTypes.length ∧
    invoke echoInfo [] =
      Except.ok (List.replicate (echoInfo.outTypes.length - 1) GoAny.nil ++
        [GoAny.errv ErrKind.arityMismatch]) :=
  ⟨by decide, (c4_amended echoInfo [] (by decide)).1 (by decide)⟩

/-- C5 counterexample: a validation failure can panic across the call
boundary: invoking a bound function of return arity zero with a superfluous
argument fails the argument-count check and then panics writing the error
into the empty result list, contradicting the claim (which explicitly
includes zero return arity). -/
theorem c5_counterexample :
    nullaryNoOut.outTypes.length = 0 ∧
    invoke nullaryNoOut [intVal] = Except.error "index out of range" ∧
    panicked (invoke nullaryNoOut [intVal]) = true :=
  ⟨rfl, rfl, rfl⟩

/-- C5 (amended): for every bound function whose declared return arity is
at least one, a dynamic-call validation failure never panics: it is
converted into the uniform last-slot error result.  For declared return
arity zero a validation failure panics (see the counterexample). -/
theorem c5_amended (info : FuncInfo) (params : List GoValue)
    (hn : 1 ≤ info.outTypes.length)
    (hfail : params.length ≠ info.inTypes.length ∨
      (params.length = info.inTypes.length ∧
        ∃ k t, findMismatch info.inTypes params 0 = some (k, t))) :
    panicked (invoke info params) = false := by
  rcases hfail with h | ⟨hlen, k, t, hm⟩
  · rw [invoke_arity_fail info params h, setLast_replicate _ _ hn]
    rfl
  · rw [invoke_type_fail info params k t hlen hm, setLast_replicate _ _ hn]
    rfl

/-- C5 amended witness: a type-mismatched call of the two-result `Echo`
binding does not panic. -/
theorem c5_amended_witness :
    1 ≤ echoInfo.outTypes.length ∧
    panicked (invoke echoInfo [intVal]) = false :=
  ⟨by decide, c5_amended echoInfo [intVal] (by decide)
    (Or.inr ⟨rfl, 0, echoType, rfl⟩)⟩

/-- C6 counterexample: an argument list of the correct length with a
mismatching type name against a bound function of return arity zero does
not fail with `TypeMismatch` — the error write panics instead, so the
claimed equivalence fails at this input. -/
theorem c6_counterexample :
    findMismatch zeroRetInfo.inTypes [strVal] 0 = some (0, { name := "int" }) ∧
    isTypeMismatchResult (invoke zeroRetInfo [strVal]) = false ∧
    invoke zeroRetInfo [strVal] = Except.error "index out of range" :=
  ⟨rfl, rfl, rfl⟩

/-- C6 (amended): for every bound function of declared return arity at
least one and argument list of the correct length: when some argument's
runtime type name differs from the declared parameter's type name the
invocation returns the fixed-shape result with a `TypeMismatch` error in
the last slot (and the first mismatching index indeed carries differing
names); when no mismatch is found the call is dispatched and no validation
error is synthesized; and the mismatch test is exactly type-name equality
at every common index — not assignability. -/
theorem c6_amended (info : FuncInfo) (params : List GoValue)
    (hlen : params.length = info.inTypes.length)
    (hn : 1 ≤ info.outTypes.length) :
    (∀ k t, findMismatch info.inTypes params 0 = some (k, t) →
      invoke info params =
        Except.ok (List.replicate (info.outTypes.length - 1) GoAny.nil ++
          [GoAny.errv (ErrKind.typeMismatch k t.name)]) ∧
      ∃ v, info.inTypes.get? k = some t ∧ params.get? k = some v ∧
        t.name ≠ v.type.name) ∧
    (findMismatch info.inTypes params 0 = none →
      invoke info params =
        copyResults (info.dispatch params)
          (List.replicate info.outTypes.length GoAny.nil)) ∧
    (findMismatch info.inTypes params 0 = none ↔
      ∀ j t v, info.inTypes.get? j = some t → params.get? j = some v →
        t.name = v.type.name) := by
  refine ⟨?_, ?_, findMismatch_none_iff _ _ 0⟩
  · intro k t hm
    refine ⟨?_, ?_⟩
    · rw [invoke_type_fail info params k t hlen hm, setLast_replicate _ _ hn]
    · have h := findMismatch_some info.inTypes params 0 k t hm
      simpa using h.2
  · intro hm
    exact invoke_validated info params hlen hm

/-- C6 amended witness: for the `Echo` binding and one `int` argument, the
mismatch test at the concrete input is exactly the type-name comparison. -/
theorem c6_amended_witness :
    [intVal].length = echoInfo.inTypes.length ∧
    (findMismatch echoInfo.inTypes [intVal] 0 = none ↔
      ∀ j t v, echoInfo.inTypes.get? j = some t → [intVal].get? j = some v →
        t.name = v.type.name) :=
  ⟨rfl, (c6_amended echoInfo [intVal] rfl (by decide)).2.2⟩

/-- An artifact with an `Unload` export but no `Load` export. -/
def art7 : Artifact :=
  { loadExport := none, unloadExport := some none, funcs := fun _ => none }

/-- A loaded record over `art7`. -/
def p7 : Plugin :=
  { name := "w", version := 2, path := "/plugins/w.so", plugin := some art7
    status := PluginStatus.Loaded, refs := 0, cache := [] }

/-- C7 counterexample: unloading a `Loaded` plugin does not pass through
the `Unloading` state: the only status ever written by the `Unload` run is
`Unloaded` itself, contradicting the claimed
`Loaded → Unloading → Unloaded` path. -/
theorem c7_counterexample :
    Unload p7 =
      Except.ok ({ p7 with cache := [], status := PluginStatus.Unloaded },
        (none : Option ErrKind),
        [Event.clearedCache, Event.invokedUnloadExport,
          Event.setStatus PluginStatus.Unloaded]) ∧
    statusWrites [Event.clearedCache, Event.invokedUnloadExport,
        Event.setStatus PluginStatus.Unloaded] = [PluginStatus.Unloaded] ∧
    PluginStatus.Unloading ∉ [PluginStatus.Unloaded] :=
  ⟨rfl, rfl, by decide⟩

/-- C7 (amended): the statuses the operations actually write are:
`Load` only `Loading`, `None` or `Loaded`; `Unload` only `Unloaded`
(reached directly, never via `Unloading`); `Reload` only `Loading`,
`None`, `Loaded` or `Unloaded`.  The declared `Unloading` and `Reloading`
states are never entered by any operation. -/
theorem c7_amended (env : Env) (p : Plugin) :
    statusWrites (Load env p).2.2 ⊆
      [PluginStatus.Loading, PluginStatus.None, PluginStatus.Loaded] ∧
    statusWrites (unloadEvents p) ⊆ [PluginStatus.Unloaded] ∧
    statusWrites (reloadEvents env p) ⊆
      [PluginStatus.Loading, PluginStatus.None, PluginStatus.Loaded,
        PluginStatus.Unloaded] :=
  ⟨load_statusWrites env p, unload_statusWrites p, reload_statusWrites env p⟩

/-- C8: when the artifact's `Load` export registers successfully (callback
sets `Loaded` and notifies the registry) and then itself returns an error
`e`, `Load()` returns `e` while the record stays `Loaded` with the
registered identity. -/
theorem c8_load_error_after_registration
    (env : Env) (p : Plugin) (art : Artifact) (nm : String) (ver : Nat) (e : ErrKind)
    (hs : p.status = PluginStatus.None ∨ p.status = PluginStatus.Unloaded)
    (hopen : env.openArtifact p.path = Except.ok art)
    (hload : art.loadExport = some { calls := [(nm, ver)], ret := some e })
    (hdup : env.registryHas nm ver = false) :
    Load env p =
      ({ p with plugin := some art, name := nm, version := ver, status := PluginStatus.Loaded },
        some e,
        [Event.setStatus PluginStatus.Loading, Event.setStatus PluginStatus.Loaded,
          Event.onLoaded nm ver]) := by
  have hcond : ¬(p.status ≠ PluginStatus.None ∧ p.status ≠ PluginStatus.Unloaded) := by
    rcases hs with h | h <;> simp [h]
  simp [Load, hcond, hopen, hload, runRegister, registerCb, hdup]

/-- An artifact whose `Load` export registers `("echo", 0x100)` and then
returns an error of its own. -/
def selfErrArtifact : Artifact :=
  { loadExport := some { calls := [("echo", 256)], ret := some (ErrKind.exportErr "boom") }
    unloadExport := some none
    funcs := fun _ => none }

/-- Environment that opens `selfErrArtifact` everywhere, empty registry. -/
def env8 : Env :=
  { openArtifact := fun _ => Except.ok selfErrArtifact
    registryHas := fun _ _ => false }

/-- C8 witness: concrete load that registers then errors stays `Loaded`
and surfaces the export's error. -/
theorem c8_load_error_after_registration_witness :
    Load env8 (NewPlugin "/plugins/echo.so") =
      ({ NewPlugin "/plugins/echo.so" with plugin := some selfErrArtifact, name := "echo", version := 256, status := PluginStatus.Loaded },
        some (ErrKind.exportErr "boom"),
        [Event.setStatus PluginStatus.Loading, Event.setStatus PluginStatus.Loaded,
          Event.onLoaded "echo" 256]) :=
  c8_load_error_after_registration env8 (NewPlugin "/plugins/echo.so")
    selfErrArtifact "echo" 256 (ErrKind.exportErr "boom") (Or.inl rfl) rfl rfl rfl

/-- C9: on a record in status `None` or `Unloaded`, a `Load()` whose
artifact open fails, or whose `Load`-export lookup fails, sets the status
back to `None` and returns that error. -/
theorem c9_load_failure_reverts_to_none (env : Env) (p : Plugin)
    (hs : p.status = PluginStatus.None ∨ p.status = PluginStatus.Unloaded) :
    (∀ e, env.openArtifact p.path = Except.error e →
      Load env p = ({ p with status := PluginStatus.None }, some e,
        [Event.setStatus PluginStatus.Loading, Event.setStatus PluginStatus.None])) ∧
    (∀ art, env.openArtifact p.path = Except.ok art → art.loadExport = none →
      Load env p =
        ({ p with plugin := some art, status := PluginStatus.None },
          some (ErrKind.symbolNotFound "Load"),
          [Event.setStatus PluginStatus.Loading, Event.setStatus PluginStatus.None])) := by
  have hcond : ¬(p.status ≠ PluginStatus.None ∧ p.status ≠ PluginStatus.Unloaded) := by
    rcases hs with h | h <;> simp [h]
  constructor
  · intro e hopen
    simp [Load, hcond, hopen]
  · intro art hopen hload
    simp [Load, hcond, hopen, hload]

/-- C9 witness: a fresh record whose artifact open fails reverts to
`None` with the open error. -/
theorem c9_load_failure_reverts_to_none_witness :
    Load envDup (NewPlugin "/p") =
      ({ NewPlugin "/p" with status := PluginStatus.None },
        some (ErrKind.openFailed "open /p: no such file"),
        [Event.setStatus PluginStatus.Loading, Event.setStatus PluginStatus.None]) :=
  (c9_load_failure_reverts_to_none envDup (NewPlugin "/p") (Or.inl rfl)).1
    (ErrKind.openFailed "open /p: no such file") rfl

/-- C10: a `Reload()` whose inner `Unload()` and `Load()` both return nil
while the new artifact's `Load` export never invokes the registration
callback (so the status after the inner `Load` is still `Loading` and
nothing was registered) returns nil and force-sets status `Loaded` at its
end; no `OnLoaded` notification occurs in the whole run. -/
theorem c10_reload_forces_loaded_without_registration
    (env : Env) (p : Plugin) (art art1 : Artifact)
    (hs : p.status = PluginStatus.Loaded)
    (hp : p.plugin = some art) (hu : art.unloadExport = some none)
    (hopen : env.openArtifact p.path = Except.ok art1)
    (hload : art1.loadExport = some { calls := [], ret := none }) :
    Reload env p =
      Except.ok ({ p with cache := [], plugin := some art1, status := PluginStatus.Loaded },
        (none : Option ErrKind),
        [Event.clearedCache, Event.invokedUnloadExport,
          Event.setStatus PluginStatus.Unloaded,
          Event.setStatus PluginStatus.Loading,
          Event.setStatus PluginStatus.Loaded]) ∧
    (∀ nm ver, Event.onLoaded nm ver ∉
      ([Event.clearedCache, Event.invokedUnloadExport,
          Event.setStatus PluginStatus.Unloaded,
          Event.setStatus PluginStatus.Loading,
          Event.setStatus PluginStatus.Loaded] : List Event)) := by
  have hU : Unload p =
      Except.ok ({ p with cache := [], status := PluginStatus.Unloaded },
        (none : Option ErrKind),
        [Event.clearedCache, Event.invokedUnloadExport,
          Event.setStatus PluginStatus.Unloaded]) := by
    simp [Unload, hs, hp, hu]
  have hL : Load env { p with cache := [], status := PluginStatus.Unloaded } =
      ({ p with cache := [], status := PluginStatus.Loading, plugin := some art1 },
        (none : Option ErrKind), [Event.setStatus PluginStatus.Loading]) := by
    simp [Load, hopen, hload, runRegister]
  constructor
  · unfold Reload
    rw [hU]
    dsimp only
    rw [hL]
    rfl
  · intro nm ver
    simp

/-- The fresh artifact opened during the reload: its `Load` export never
calls the registration callback. -/
def silentArtifact : Artifact :=
  { loadExport := some { calls := [], ret := none }
    unloadExport := some none
    funcs := fun _ => none }

/-- Environment opening `silentArtifact` everywhere. -/
def env10 : Env :=
  { openArtifact := fun _ => Except.ok silentArtifact
    registryHas := fun _ _ => false }

/-- C10 witness: reloading the loaded `echo` record against an artifact
that never registers still ends with status `Loaded` and a nil error. -/
theorem c10_reload_forces_loaded_witness :
    Reload env10 loadedEcho =
      Except.ok ({ loadedEcho with cache := [], plugin := some silentArtifact, status := PluginStatus.Loaded },
        (none : Option ErrKind),
        [Event.clearedCache, Event.invokedUnloadExport,
          Event.setStatus PluginStatus.Unloaded,
          Event.setStatus PluginStatus.Loading,
          Event.setStatus PluginStatus.Loaded]) :=
  (c10_reload_forces_loaded_without_registration env10 loadedEcho echoArtifact
    silentArtifact rfl rfl rfl rfl rfl).1

end PluginManager
